import Mathlib

/-!
Shallow embedding of the medical-review pipeline script (`src/app.py`).

Python strings are modelled as `List Char` (`Str`); Python slicing `s[:n]`
becomes `List.take n`.  Calls into external libraries (the generative-model
SDK, the PDF/Word readers, PIL, Entrez) are modelled as explicit behaviour
records whose fields return `Except Str α`: an `.error e` field value means
"this call raises an exception whose `str()` is `e`".  A Python function that
may let an exception escape is embedded with result type `Except Str β`
(`.error` = escaped exception, `.ok` = returned value); `try/except` blocks
become matches on the fallible sub-computation.
-/

/-- Python strings as lists of characters. -/
abbrev Str := List Char

/-- Python truthiness of a `str`-or-`None` value (`if error:`): `None` and
the empty string are falsy, every other string is truthy. -/
def truthyOptStr : Option Str → Bool
  | none => false
  | some s => !s.isEmpty

/-- Python substring test `needle in hay`. -/
def containsSub : Str → Str → Bool
  | [], needle => needle.isEmpty
  | h :: t, needle => needle.isPrefixOf (h :: t) || containsSub t needle

/-- Python `str.strip()` (whitespace from both ends). -/
def pyStrip (s : Str) : Str :=
  ((s.dropWhile Char.isWhitespace).reverse.dropWhile Char.isWhitespace).reverse

/-- Python f-string interpolation of a value that may be `None`
(`f"{model_name}"`). -/
def pyStrOfOpt : Option Str → Str
  | none => "None".toList
  | some s => s

/-- One entry of the provider's `genai.list_models()` listing: a model name
plus its supported generation methods. -/
structure ProviderModel where
  name : Str
  supported_generation_methods : List Str
deriving DecidableEq

/-- Behaviour of the generative-model SDK as observed by `find_best_model`
(`app.py` lines 52-92).  `genai.configure` is executed *outside* the `try`
block (line 56), so its failure is an escaping exception, while a failure of
`genai.list_models()` (inside the `try`) is caught. -/
structure GenaiEnv where
  configure : Except Str Unit
  list_models : Except Str (List ProviderModel)

/-- The capability tag checked by `find_best_model` (line 60). -/
def GENERATE_CONTENT : Str := "generateContent".toList

/-- Priority marker for the fast/lightweight family (line 70). -/
def FLASH_MARK : Str := "flash".toList

/-- Priority marker for the large-context v1.5 family (line 76). -/
def PRO15_MARK : Str := "1.5-pro".toList

/-- Priority marker for the generic default family (line 82). -/
def GEMINI_PRO_MARK : Str := "gemini-pro".toList

/-- Message returned when no model supports content generation (line 64). -/
def NO_MODELS_MSG : Str := "沒有找到任何支援生成內容的模型 (權限或區域問題)。".toList

/-- The loop of `app.py` lines 58-61: collect, in provider order, the names
of the models whose supported methods include `generateContent`. -/
def availableModels (pms : List ProviderModel) : List Str :=
  (pms.filter (fun m => m.supported_generation_methods.contains GENERATE_CONTENT)).map
    ProviderModel.name

/-- The priority cascade of `app.py` lines 66-87: first name containing
`flash`, else first containing `1.5-pro`, else first containing
`gemini-pro`, else `available_models[0]` (passed in as `first`). -/
def pickBestModel (avail : List Str) (first : Str) : Str :=
  match avail.find? (fun m => containsSub m FLASH_MARK) with
  | some m => m
  | none =>
    match avail.find? (fun m => containsSub m PRO15_MARK) with
    | some m => m
    | none =>
      match avail.find? (fun m => containsSub m GEMINI_PRO_MARK) with
      | some m => m
      | none => first

/-- The function `find_best_model(api_key)` (`app.py` lines 52-92).  Returns
`(model_name, error)` as in the source; an escaping exception (from
`genai.configure`, line 56) is `.error`. -/
def find_best_model (env : GenaiEnv) : Except Str (Option Str × Option Str) :=
  match env.configure with
  | .error e => .error e
  | .ok _ =>
    match env.list_models with
    | .error e => .ok (none, some e)
    | .ok pms =>
      match availableModels pms with
      | [] => .ok (none, some NO_MODELS_MSG)
      | first :: rest => .ok (some (pickBestModel (first :: rest) first), none)

theorem find_best_model_ok_err (e : Str) :
    find_best_model ⟨Except.ok (), Except.error e⟩ = .ok (none, some e) := rfl

theorem find_best_model_ok_ok (pms : List ProviderModel) :
    find_best_model ⟨Except.ok (), Except.ok pms⟩ =
      (match availableModels pms with
       | [] => Except.ok (none, some NO_MODELS_MSG)
       | first :: rest =>
         Except.ok (some (pickBestModel (first :: rest) first), none)) := rfl

/-- Holds when `x` is the first element of `l` satisfying `p`. -/
def FirstSuchThat (p : α → Bool) (l : List α) (x : α) : Prop :=
  ∃ l₁ l₂, l = l₁ ++ x :: l₂ ∧ p x = true ∧ ∀ y ∈ l₁, p y = false

theorem find?_firstSuchThat {p : α → Bool} {l : List α} {x : α}
    (h : l.find? p = some x) : FirstSuchThat p l x := by
  induction l with
  | nil => simp [List.find?] at h
  | cons a t ih =>
    by_cases hp : p a = true
    · rw [List.find?_cons_of_pos _ hp] at h
      cases h
      exact ⟨[], t, rfl, hp, by simp⟩
    · have hp' : p a = false := by simpa using hp
      rw [List.find?_cons_of_neg _ (by simp [hp'])] at h
      obtain ⟨l₁, l₂, hl, hx, hall⟩ := ih h
      refine ⟨a :: l₁, l₂, by rw [hl]; rfl, hx, ?_⟩
      intro y hy
      rcases List.mem_cons.mp hy with h1 | h2
      · rw [h1]; exact hp'
      · exact hall y h2

theorem pickBestModel_mem (first : Str) (rest : List Str) :
    pickBestModel (first :: rest) first ∈ first :: rest := by
  unfold pickBestModel
  split
  next m hf => exact List.mem_of_find?_eq_some hf
  next =>
    split
    next m hf => exact List.mem_of_find?_eq_some hf
    next =>
      split
      next m hf => exact List.mem_of_find?_eq_some hf
      next => exact List.mem_cons_self first rest

/-- claim C10 (counterexample): when `genai.list_models()` raises an
exception whose `str()` is empty (Python `str(Exception())` is `""`),
`find_best_model` returns `(None, "")` — the error description is empty,
contradicting the claimed non-empty error description. -/
theorem C10_empty_error_counterexample :
    find_best_model ⟨Except.ok (), Except.error []⟩ = .ok (none, some []) ∧
    ([] : Str).isEmpty = true :=
  ⟨rfl, rfl⟩

/-- claim C10 (amended): every value returned by `find_best_model` (when
`genai.configure` does not raise) is either `(some m, none)` with `m` drawn
from the provider-listed models supporting `generateContent`, or
`(none, some e)`; it never returns both, never `(none, none)`, and never
fabricates an identifier — but the error string `e` may be empty. -/
theorem C10_find_best_model_shape_amended (env : GenaiEnv)
    (r : Option Str × Option Str) (hc : env.configure = Except.ok ())
    (h : find_best_model env = .ok r) :
    (∃ m pms, env.list_models = .ok pms ∧ r = (some m, none) ∧
      m ∈ availableModels pms) ∨
    (∃ e, r = (none, some e)) := by
  obtain ⟨cfg, lm⟩ := env
  simp only at hc
  subst hc
  cases lm with
  | error e =>
    rw [find_best_model_ok_err] at h
    right
    exact ⟨e, (Except.ok.inj h).symm⟩
  | ok pms =>
    rw [find_best_model_ok_ok] at h
    cases havail : availableModels pms with
    | nil =>
      rw [havail] at h
      right
      exact ⟨NO_MODELS_MSG, (Except.ok.inj h).symm⟩
    | cons first rest =>
      rw [havail] at h
      left
      refine ⟨pickBestModel (first :: rest) first, pms, rfl, (Except.ok.inj h).symm, ?_⟩
      rw [havail]
      exact pickBestModel_mem first rest

/-- Witness for C10's amended theorem at a concrete input: `list_models`
raising with message `"boom"` yields `(none, some "boom")`, which satisfies
the disjunctive shape. -/
theorem C10_find_best_model_shape_amended_witness :
    (⟨Except.ok (), Except.error "boom".toList⟩ : GenaiEnv).configure = Except.ok () ∧
    ((∃ m pms,
        (⟨Except.ok (), Except.error "boom".toList⟩ : GenaiEnv).list_models = .ok pms ∧
        ((none, some "boom".toList) : Option Str × Option Str) = (some m, none) ∧
        m ∈ availableModels pms) ∨
      (∃ e, ((none, some "boom".toList) : Option Str × Option Str) = (none, some e))) :=
  ⟨rfl, C10_find_best_model_shape_amended _ _ rfl rfl⟩

/-- claim C3: for a non-empty set of provider-listed models supporting
content generation, `find_best_model` returns the first name containing
`flash`; failing that the first containing `1.5-pro`; failing that the
first containing `gemini-pro`; and failing all three markers, the first
element in provider order. -/
theorem C3_find_best_model_priority (pms : List ProviderModel)
    (hne : availableModels pms ≠ []) :
    ∃ r, find_best_model ⟨Except.ok (), Except.ok pms⟩ = .ok (some r, none) ∧
      ((∃ m ∈ availableModels pms, containsSub m FLASH_MARK = true) →
        FirstSuchThat (fun m => containsSub m FLASH_MARK) (availableModels pms) r) ∧
      ((∀ m ∈ availableModels pms, containsSub m FLASH_MARK = false) →
        (∃ m ∈ availableModels pms, containsSub m PRO15_MARK = true) →
        FirstSuchThat (fun m => containsSub m PRO15_MARK) (availableModels pms) r) ∧
      ((∀ m ∈ availableModels pms, containsSub m FLASH_MARK = false) →
        (∀ m ∈ availableModels pms, containsSub m PRO15_MARK = false) →
        (∃ m ∈ availableModels pms, containsSub m GEMINI_PRO_MARK = true) →
        FirstSuchThat (fun m => containsSub m GEMINI_PRO_MARK) (availableModels pms) r) ∧
      ((∀ m ∈ availableModels pms, containsSub m FLASH_MARK = false) →
        (∀ m ∈ availableModels pms, containsSub m PRO15_MARK = false) →
        (∀ m ∈ availableModels pms, containsSub m GEMINI_PRO_MARK = false) →
        (availableModels pms).head? = some r) := by
  obtain ⟨first, rest, hl⟩ := List.exists_cons_of_ne_nil hne
  refine ⟨pickBestModel (first :: rest) first, ?_, ?_, ?_, ?_, ?_⟩
  · rw [find_best_model_ok_ok, hl]
  · rintro ⟨m, hm, hmark⟩
    rw [hl] at hm ⊢
    cases hf : (first :: rest).find? (fun m => containsSub m FLASH_MARK) with
    | none => exact absurd hmark (List.find?_eq_none.mp hf m hm)
    | some x =>
      have hpick : pickBestModel (first :: rest) first = x := by
        unfold pickBestModel
        rw [hf]
      rw [hpick]
      exact find?_firstSuchThat hf
  · intro hnoflash
    rintro ⟨m, hm, hmark⟩
    rw [hl] at hm ⊢
    have hfn : (first :: rest).find? (fun m => containsSub m FLASH_MARK) = none := by
      rw [List.find?_eq_none]
      intro x hx
      rw [hl] at hnoflash
      simp [hnoflash x hx]
    cases hf : (first :: rest).find? (fun m => containsSub m PRO15_MARK) with
    | none => exact absurd hmark (List.find?_eq_none.mp hf m hm)
    | some x =>
      have hpick : pickBestModel (first :: rest) first = x := by
        unfold pickBestModel
        rw [hfn, hf]
      rw [hpick]
      exact find?_firstSuchThat hf
  · intro hnoflash hnopro
    rintro ⟨m, hm, hmark⟩
    rw [hl] at hm ⊢
    rw [hl] at hnoflash hnopro
    have hfn : (first :: rest).find? (fun m => containsSub m FLASH_MARK) = none := by
      rw [List.find?_eq_none]
      intro x hx
      simp [hnoflash x hx]
    have hpn : (first :: rest).find? (fun m => containsSub m PRO15_MARK) = none := by
      rw [List.find?_eq_none]
      intro x hx
      simp [hnopro x hx]
    cases hf : (first :: rest).find? (fun m => containsSub m GEMINI_PRO_MARK) with
    | none => exact absurd hmark (List.find?_eq_none.mp hf m hm)
    | some x =>
      have hpick : pickBestModel (first :: rest) first = x := by
        unfold pickBestModel
        rw [hfn, hpn, hf]
      rw [hpick]
      exact find?_firstSuchThat hf
  · intro hnoflash hnopro hnogem
    rw [hl] at hnoflash hnopro hnogem ⊢
    have hfn : (first :: rest).find? (fun m => containsSub m FLASH_MARK) = none := by
      rw [List.find?_eq_none]
      intro x hx
      simp [hnoflash x hx]
    have hpn : (first :: rest).find? (fun m => containsSub m PRO15_MARK) = none := by
      rw [List.find?_eq_none]
      intro x hx
      simp [hnopro x hx]
    have hgn : (first :: rest).find? (fun m => containsSub m GEMINI_PRO_MARK) = none := by
      rw [List.find?_eq_none]
      intro x hx
      simp [hnogem x hx]
    have hpick : pickBestModel (first :: rest) first = first := by
      unfold pickBestModel
      rw [hfn, hpn, hgn]
    rw [hpick]
    rfl

/-- Witness for C3 at a concrete provider listing: two models support
`generateContent`, and `find_best_model` returns one of them. -/
theorem C3_find_best_model_priority_witness :
    ∃ r, find_best_model
        ⟨Except.ok (), Except.ok
          [⟨"models/gemini-1.5-pro".toList, ["generateContent".toList]⟩,
           ⟨"models/gemini-1.5-flash".toList, ["generateContent".toList]⟩]⟩ =
      .ok (some r, none) :=
  (C3_find_best_model_priority _ (by decide)).elim fun r hr => ⟨r, hr.1⟩

/-- Behaviour of `PdfReader` for one file: either constructing the reader
raises, or it yields the per-page results of `page.extract_text()`, each of
which may itself raise or return a string-or-`None`. -/
structure PdfEnv where
  reader : Except Str (List (Except Str (Option Str)))

/-- Diagnostic head for PDF failures (`app.py` line 38). -/
def PDF_ERR_PRE : Str := "[PDF 讀取錯誤: ".toList

/-- The `try` body of `get_text_from_pdf` (`app.py` lines 30-36): build the
reader, then accumulate each page's extracted text, skipping falsy
(`None`/empty) extracts. -/
def pdf_body (env : PdfEnv) : Except Str Str := do
  let pages ← env.reader
  pages.foldlM
    (fun text pg => do
      let extract ← pg
      if truthyOptStr extract then pure (text ++ extract.getD []) else pure text)
    ([] : Str)

/-- The function `get_text_from_pdf(file_obj)` (`app.py` lines 29-38): any exception in
the body is caught and converted to a bracketed diagnostic string. -/
def get_text_from_pdf (env : PdfEnv) : Except Str Str :=
  match pdf_body env with
  | .ok t => .ok t
  | .error e => .ok (PDF_ERR_PRE ++ e ++ "]".toList)

/-- Behaviour of `docx.Document` for one file: either it raises, or it
yields the list of paragraph texts. -/
structure WordEnv where
  document : Except Str (List Str)

/-- The legacy-format advisory (`app.py` line 47). -/
def LEGACY_DOC_ADVISORY : Str :=
  "⚠️ [格式提示]: 偵測到舊版 Word (.doc)。建議另存為 .docx。".toList

/-- Diagnostic head for generic Word failures (`app.py` line 49). -/
def WORD_ERR_PRE : Str := "[Word 讀取錯誤: ".toList

/-- The function `get_text_from_word(file_obj, file_ext)` (`app.py` lines 40-49): join
paragraph texts with newlines; on an exception, return the legacy advisory
when the declared extension contains `doc` but not `docx`, else a generic
bracketed diagnostic. -/
def get_text_from_word (env : WordEnv) (file_ext : Str) : Except Str Str :=
  match env.document with
  | .ok paras => .ok (List.intercalate "\n".toList paras)
  | .error e =>
    if containsSub file_ext "doc".toList && !containsSub file_ext "docx".toList then
      .ok LEGACY_DOC_ADVISORY
    else
      .ok (WORD_ERR_PRE ++ e ++ "]".toList)

/-- A PIL image as observed by `analyze_image_content`: only its declared
format matters to the control flow. -/
structure PILImage where
  format : Str
deriving DecidableEq

/-- Behaviour of one `analyze_image_content` invocation: the SDK behaviour
used by the nested `find_best_model` call plus the second `genai.configure`,
the `GenerativeModel` constructor, PIL's open/save calls and the vision
generation call (`response.text` included). -/
structure ImageEnv where
  genai : GenaiEnv
  construct : Option Str → Except Str Unit
  openImage : Except Str PILImage
  saveToBuffer : Except Str Unit
  openBuffer : Except Str PILImage
  generateVision : Option Str → Str → PILImage → Except Str Str

/-- The fixed vision instruction prompt (`app.py` line 109). -/
def IMAGE_PROMPT : Str :=
  "這是醫學論文的附圖。請詳細描述數據、趨勢、圖表標題(如 Figure 1)與關鍵資訊。".toList

/-- Diagnostic head when model detection fails (`app.py` line 97). -/
def IMG_DETECT_ERR_PRE : Str := "[圖片分析失敗: ".toList

/-- Diagnostic head for failures inside the `try` block (`app.py` line 113). -/
def IMG_ERR_PRE : Str := "[圖片分析錯誤: ".toList

/-- The `try` body of `analyze_image_content` (`app.py` lines 103-111):
open the image, transcode TIFF to PNG in memory, and submit the prompt and
image to the resolved model. -/
def analyze_image_body (env : ImageEnv) (model_name : Option Str) : Except Str Str := do
  let image ← env.openImage
  let image ←
    if image.format = "TIFF".toList then do
      let _ ← env.saveToBuffer
      env.openBuffer
    else pure image
  env.generateVision model_name IMAGE_PROMPT image

/-- The function `analyze_image_content(image_file, api_key)` (`app.py` lines 95-113).
The nested `find_best_model` call, the second `genai.configure` and the
`GenerativeModel(model_name)` construction (lines 96-100) all run *outside*
the `try` block, so their exceptions escape; everything inside the `try`
is caught and converted to a bracketed diagnostic. -/
def analyze_image_content (env : ImageEnv) : Except Str Str :=
  match find_best_model env.genai with
  | .error e => .error e
  | .ok (model_name, error) =>
    if truthyOptStr error then
      .ok (IMG_DETECT_ERR_PRE ++ error.getD [] ++ "]".toList)
    else
      match env.genai.configure with
      | .error e => .error e
      | .ok _ =>
        match env.construct model_name with
        | .error e => .error e
        | .ok _ =>
          match analyze_image_body env model_name with
          | .ok t => .ok t
          | .error e => .ok (IMG_ERR_PRE ++ e ++ "]".toList)

theorem find_best_model_ok_of_configure (env : GenaiEnv)
    (hc : env.configure = Except.ok ()) : ∃ v, find_best_model env = .ok v := by
  obtain ⟨cfg, lm⟩ := env
  simp only at hc
  subst hc
  cases lm with
  | error e => exact ⟨_, find_best_model_ok_err e⟩
  | ok pms =>
    rw [find_best_model_ok_ok]
    cases availableModels pms with
    | nil => exact ⟨_, rfl⟩
    | cons a b => exact ⟨_, rfl⟩

/-- A concrete image-extraction behaviour in which the `GenerativeModel`
constructor raises while every other call succeeds. -/
def imgEnvRaise : ImageEnv :=
  { genai := ⟨Except.ok (),
      Except.ok [⟨"models/gemini-1.5-flash".toList, ["generateContent".toList]⟩]⟩
    construct := fun _ => Except.error "RuntimeError".toList
    openImage := Except.ok ⟨"PNG".toList⟩
    saveToBuffer := Except.ok ()
    openBuffer := Except.ok ⟨"PNG".toList⟩
    generateVision := fun _ _ _ => Except.ok [] }

/-- claim C2 (counterexample): `GenerativeModel(model_name)` is executed
outside the `try` block of `analyze_image_content` (`app.py` line 100), so
when that construction raises, the exception escapes the extractor instead
of being converted to a diagnostic string. -/
theorem C2_extractor_raise_counterexample :
    analyze_image_content imgEnvRaise = .error "RuntimeError".toList := by
  rfl

/-- claim C2 (amended): `get_text_from_pdf` and `get_text_from_word` return
a string for every reader behaviour; `analyze_image_content` returns a
string for every behaviour of the image open/transcode/generation calls,
provided provider configuration and model-handle construction (which run
outside its `try` block) do not raise. -/
theorem C2_extractors_no_raise_amended :
    (∀ env : PdfEnv, ∃ s, get_text_from_pdf env = .ok s) ∧
    (∀ (env : WordEnv) (file_ext : Str), ∃ s, get_text_from_word env file_ext = .ok s) ∧
    (∀ env : ImageEnv, env.genai.configure = Except.ok () →
      (∀ mn, env.construct mn = Except.ok ()) →
      ∃ s, analyze_image_content env = .ok s) := by
  refine ⟨?_, ?_, ?_⟩
  · intro env
    unfold get_text_from_pdf
    cases pdf_body env with
    | ok t => exact ⟨t, rfl⟩
    | error e => exact ⟨_, rfl⟩
  · intro env file_ext
    unfold get_text_from_word
    cases env.document with
    | ok paras => exact ⟨_, rfl⟩
    | error e =>
      dsimp only
      split
      · exact ⟨_, rfl⟩
      · exact ⟨_, rfl⟩
  · intro env hcfg hcon
    obtain ⟨⟨mn, err⟩, hfb⟩ := find_best_model_ok_of_configure env.genai hcfg
    unfold analyze_image_content
    rw [hfb]
    dsimp only
    split
    · exact ⟨_, rfl⟩
    · rw [hcfg, hcon mn]
      cases analyze_image_body env mn with
      | ok t => exact ⟨t, rfl⟩
      | error e => exact ⟨_, rfl⟩

/-- A concrete image-extraction behaviour whose model detection fails with a
provider message, exercising the diagnostic path. -/
def imgEnvDiag : ImageEnv :=
  { genai := ⟨Except.ok (), Except.error "quota exceeded".toList⟩
    construct := fun _ => Except.ok ()
    openImage := Except.ok ⟨"PNG".toList⟩
    saveToBuffer := Except.ok ()
    openBuffer := Except.ok ⟨"PNG".toList⟩
    generateVision := fun _ _ _ => Except.ok "a figure".toList }

/-- Witness for C2's amended theorem at concrete behaviours: a raising PDF
reader, a raising Word reader on a `.docx` file, and an image analysis whose
model detection fails, all yield strings. -/
theorem C2_extractors_no_raise_amended_witness :
    (∃ s, get_text_from_pdf ⟨Except.error "bad pdf".toList⟩ = .ok s) ∧
    (∃ s, get_text_from_word ⟨Except.error "bad zip".toList⟩ "docx".toList = .ok s) ∧
    (∃ s, analyze_image_content imgEnvDiag = .ok s) :=
  ⟨C2_extractors_no_raise_amended.1 _,
   C2_extractors_no_raise_amended.2.1 _ _,
   C2_extractors_no_raise_amended.2.2 imgEnvDiag rfl (fun _ => rfl)⟩

theorem advisory_ne_generic (e : Str) :
    LEGACY_DOC_ADVISORY ≠ WORD_ERR_PRE ++ e ++ "]".toList := by
  intro h
  have h1 := congrArg List.head? h
  have h2 : (WORD_ERR_PRE ++ e ++ "]".toList).head? = some '[' := by
    rw [show WORD_ERR_PRE = '[' :: "Word 讀取錯誤: ".toList from rfl]
    simp
  have h3 : LEGACY_DOC_ADVISORY.head? = some '⚠' := by decide
  rw [h2, h3] at h1
  exact absurd h1 (by decide)

/-- claim C7: when the Word reader raises, a declared extension containing
`doc` but not `docx` yields the fixed legacy-format advisory verbatim; any
other extension yields the generic bracketed Word-error string; the two are
distinct for every exception message, and the raw exception never
propagates. -/
theorem C7_word_legacy_advisory (env : WordEnv) (file_ext e : Str)
    (hraise : env.document = Except.error e) :
    (containsSub file_ext "doc".toList = true →
      containsSub file_ext "docx".toList = false →
      get_text_from_word env file_ext = .ok LEGACY_DOC_ADVISORY) ∧
    ((containsSub file_ext "doc".toList = false ∨
      containsSub file_ext "docx".toList = true) →
      get_text_from_word env file_ext = .ok (WORD_ERR_PRE ++ e ++ "]".toList)) ∧
    (∀ e2, LEGACY_DOC_ADVISORY ≠ WORD_ERR_PRE ++ e2 ++ "]".toList) ∧
    (∃ s, get_text_from_word env file_ext = .ok s) := by
  unfold get_text_from_word
  rw [hraise]
  dsimp only
  refine ⟨?_, ?_, advisory_ne_generic, ?_⟩
  · intro h1 h2
    have hcond : (containsSub file_ext "doc".toList &&
        !containsSub file_ext "docx".toList) = true := by rw [h1, h2]; rfl
    rw [if_pos hcond]
  · rintro (h1 | h2)
    · have hcond : (containsSub file_ext "doc".toList &&
          !containsSub file_ext "docx".toList) = false := by rw [h1]; rfl
      rw [if_neg (show ¬ _ = true by rw [hcond]; simp)]
    · have hcond : (containsSub file_ext "doc".toList &&
          !containsSub file_ext "docx".toList) = false := by rw [h2]; simp
      rw [if_neg (show ¬ _ = true by rw [hcond]; simp)]
  · dsimp only
    split
    · exact ⟨_, rfl⟩
    · exact ⟨_, rfl⟩

/-- Witness for C7 at a concrete input: a raising reader on extension
`doc` yields the legacy advisory. -/
theorem C7_word_legacy_advisory_witness :
    ((⟨Except.error "raw".toList⟩ : WordEnv).document = Except.error "raw".toList) ∧
    get_text_from_word ⟨Except.error "raw".toList⟩ "doc".toList = .ok LEGACY_DOC_ADVISORY :=
  ⟨rfl, (C7_word_legacy_advisory _ _ _ rfl).1 (by decide) (by decide)⟩

/-- Parameters of the Entrez id-search call
(`Entrez.esearch(db=..., term=..., retmax=..., sort=...)`, `app.py` line 119). -/
structure EsearchParams where
  db : Str
  term : Str
  retmax : Nat
  sort : Str
deriving DecidableEq

/-- Parameters of the Entrez abstract-fetch call
(`Entrez.efetch(db=..., id=..., rettype=..., retmode=...)`, `app.py` line 127). -/
structure EfetchParams where
  db : Str
  id : List Str
  rettype : Str
  retmode : Str
deriving DecidableEq

/-- One remote call performed by `search_pubmed`. -/
inductive RemoteCall
  | esearch (p : EsearchParams)
  | efetch (p : EfetchParams)
deriving DecidableEq

/-- Behaviour of the Entrez transport: the id search yields an id list (or
raises, covering `Entrez.read` too), the abstract fetch yields raw text (or
raises, covering `handle.read` too). -/
structure EntrezEnv where
  esearch : EsearchParams → Except Str (List Str)
  efetch : EfetchParams → Except Str Str

/-- The fixed publication-date filter appended to the keywords
(`app.py` line 118). -/
def DATE_FILTER : Str :=
  " AND (2024/01/01[Date - Publication] : 3000[Date - Publication])".toList

/-- The "no recent results" sentinel (`app.py` line 125). -/
def NO_RESULTS_SENTINEL : Str := "未找到 2024 年後的最新相關文獻。".toList

/-- Head of the error string for a caught transport failure
(`app.py` line 132). -/
def PUBMED_ERR_PRE : Str := "PubMed API 連線錯誤: ".toList

/-- The query string `f"{keywords} AND (2024/01/01[Date - Publication] :
3000[Date - Publication])"` (`app.py` line 118). -/
def pubmedQuery (keywords : Str) : Str := keywords ++ DATE_FILTER

/-- The id-search parameters used by `search_pubmed` (line 119). -/
def esearchCall (keywords : Str) (max_results : Nat) : EsearchParams :=
  ⟨"pubmed".toList, pubmedQuery keywords, max_results, "date".toList⟩

/-- The abstract-fetch parameters used by `search_pubmed` (line 127). -/
def efetchCall (id_list : List Str) : EfetchParams :=
  ⟨"pubmed".toList, id_list, "abstract".toList, "text".toList⟩

/-- The function `search_pubmed(keywords, max_results=5)` (`app.py` lines 116-132),
instrumented with the list of remote calls actually performed.  The whole
body sits in one `try`, so every transport failure is caught and converted
to a descriptive error string; an empty id list short-circuits to the
sentinel without a second call. -/
def search_pubmed (env : EntrezEnv) (keywords : Str) (max_results : Nat := 5) :
    Str × List RemoteCall :=
  match env.esearch (esearchCall keywords max_results) with
  | .error e => (PUBMED_ERR_PRE ++ e, [.esearch (esearchCall keywords max_results)])
  | .ok id_list =>
    if id_list.isEmpty then
      (NO_RESULTS_SENTINEL, [.esearch (esearchCall keywords max_results)])
    else
      match env.efetch (efetchCall id_list) with
      | .error e =>
        (PUBMED_ERR_PRE ++ e,
         [.esearch (esearchCall keywords max_results), .efetch (efetchCall id_list)])
      | .ok abstracts =>
        (abstracts,
         [.esearch (esearchCall keywords max_results), .efetch (efetchCall id_list)])

/-- claim C4: when the id search returns an empty id list, `search_pubmed`
returns the fixed "no recent results" sentinel and performs no abstract
fetch. -/
theorem C4_search_pubmed_empty_sentinel (env : EntrezEnv) (keywords : Str)
    (mx : Nat) (h : env.esearch (esearchCall keywords mx) = .ok []) :
    search_pubmed env keywords mx =
      (NO_RESULTS_SENTINEL, [RemoteCall.esearch (esearchCall keywords mx)]) ∧
    ∀ p, RemoteCall.efetch p ∉ (search_pubmed env keywords mx).2 := by
  have hres : search_pubmed env keywords mx =
      (NO_RESULTS_SENTINEL, [RemoteCall.esearch (esearchCall keywords mx)]) := by
    unfold search_pubmed
    rw [h]
    rfl
  refine ⟨hres, ?_⟩
  intro p hp
  rw [hres] at hp
  simp at hp

/-- Witness for C4 at a concrete behaviour: an id search that returns the
empty list. -/
theorem C4_search_pubmed_empty_sentinel_witness :
    (⟨fun _ => Except.ok [], fun _ => Except.ok []⟩ : EntrezEnv).esearch
        (esearchCall "sepsis biomarkers".toList 5) = .ok [] ∧
    search_pubmed ⟨fun _ => Except.ok [], fun _ => Except.ok []⟩
        "sepsis biomarkers".toList 5 =
      (NO_RESULTS_SENTINEL,
       [RemoteCall.esearch (esearchCall "sepsis biomarkers".toList 5)]) :=
  ⟨rfl, (C4_search_pubmed_empty_sentinel _ _ _ rfl).1⟩

/-- claim C8: the query is exactly the keywords followed by the fixed
2024/01/01 publication-date filter, and a successful run performs exactly
two sequential remote calls — an id search on `pubmed` sorted by `date`
capped at `max_results`, then an abstract fetch for the returned id set —
returning the raw fetched text unchanged. -/
theorem C8_search_pubmed_wire_contract (env : EntrezEnv) (keywords : Str)
    (mx : Nat) (ids : List Str) (abst : Str)
    (h1 : env.esearch (esearchCall keywords mx) = .ok ids) (hne : ids ≠ [])
    (h2 : env.efetch (efetchCall ids) = .ok abst) :
    (esearchCall keywords mx).term =
      keywords ++
        " AND (2024/01/01[Date - Publication] : 3000[Date - Publication])".toList ∧
    (esearchCall keywords mx).db = "pubmed".toList ∧
    (esearchCall keywords mx).sort = "date".toList ∧
    (esearchCall keywords mx).retmax = mx ∧
    (efetchCall ids).id = ids ∧
    (efetchCall ids).rettype = "abstract".toList ∧
    search_pubmed env keywords mx =
      (abst, [RemoteCall.esearch (esearchCall keywords mx),
              RemoteCall.efetch (efetchCall ids)]) := by
  refine ⟨rfl, rfl, rfl, rfl, rfl, rfl, ?_⟩
  unfold search_pubmed
  rw [h1]
  dsimp only
  rw [if_neg (by simp [List.isEmpty_iff, hne]), h2]

/-- Witness for C8 at a concrete behaviour: two ids are returned and their
abstracts fetched. -/
theorem C8_search_pubmed_wire_contract_witness :
    search_pubmed
        ⟨fun _ => Except.ok ["39000001".toList, "39000002".toList],
         fun _ => Except.ok "Abstract text.".toList⟩
        "sepsis biomarkers".toList 5 =
      ("Abstract text.".toList,
       [RemoteCall.esearch (esearchCall "sepsis biomarkers".toList 5),
        RemoteCall.efetch (efetchCall ["39000001".toList, "39000002".toList])]) :=
  (C8_search_pubmed_wire_contract _ _ _ _ _ rfl (by decide) rfl).2.2.2.2.2.2

/-- Fixed head of the keyword-extraction prompt (`app.py` line 148). -/
def KW_PROMPT_PRE : Str := "請從以下內容提取 3-5 個醫學關鍵字 (MeSH terms)，用英文空格分隔：\n".toList

/-- Fixed text of the review prompt before the manuscript slice
(`app.py` lines 164-169). -/
def REVIEW_PRE : Str := "\n    You are a senior Medical Journal Reviewer.\n    Your task is to review the provided manuscript based on the latest literature (provided below).\n\n    【INPUT DATA】\n    1. Manuscript Content: \n    ".toList

/-- Fixed text of the review prompt between the manuscript slice and the
literature text (`app.py` lines 170-172). -/
def REVIEW_MID : Str := "\n    \n    2. Latest PubMed Literature (2024-Present):\n    ".toList

/-- Fixed text of the review prompt after the literature text
(`app.py` lines 174-200). -/
def REVIEW_POST : Str := "\n\n    【REQUIREMENTS】\n    Please generate the output in **TWO PARTS**.\n\n    ---\n    ### PART 1: Traditional Chinese (繁體中文) - For the User\n    - **Tone**: Professional yet conversational (Senior colleague to colleague). No AI-like stiffness.\n    - **Structure**:\n      1. **整體評價 (Overview)**: Brief summary of value.\n      2. **文獻對照 (Reality Check)**: Compare with the PubMed data provided. Is it outdated?\n      3. **待釐清問題 (Specific Queries)**: 3-5 sharp points.\n         - **CRITICAL**: You MUST cite the location for every query.\n         - Format: **[Section Name, Line Number OR Quote]** (e.g., [Methods, Line 125] or [Introduction, \"The patient was...\"]).\n      4. **最終判決 (Recommendation)**: **Accept / Minor Revision / Major Revision / Reject** (Bold this).\n\n    ---\n    ### PART 2: English Report - For the Authors/Editor\n    - **Tone**: Conversational, Concise, Direct, Polished (Native speaker tone).\n    - **Style**: Avoid wordy academic jargon where simple language works. Get to the point.\n    - **Structure**:\n      1. **General Comments**: Very brief (2-3 sentences).\n      2. **Specific Comments & Queries**:\n         - Numbered list.\n         - **CRITICAL**: Use the same location citation format: **[Section, Line X / Quote]**.\n         - Example: \"In the **[Methods]** section (Line 45), you mentioned X, but Table 1 shows Y. Please clarify.\"\n    \n    ".toList

/-- The keyword-extraction prompt (`app.py` line 148): fixed head followed
by the first 5000 characters of the merged corpus. -/
def keyword_prompt (combined_text : Str) : Str :=
  KW_PROMPT_PRE ++ combined_text.take 5000

/-- The review prompt (`app.py` lines 164-200): fixed sections surrounding
the first 30000 characters of the merged corpus and the literature text. -/
def review_prompt (combined_text pubmed_data : Str) : Str :=
  REVIEW_PRE ++ combined_text.take 30000 ++ REVIEW_MID ++ pubmed_data ++ REVIEW_POST

/-- The failure-message head of the model-detection stage (line 140). -/
def MODEL_DETECT_ERR_PRE : Str := "Error (模型偵測失敗): ".toList

/-- The failure-message head of the keyword stage (line 155). -/
def KW_STAGE_ERR_PRE : Str := "Error (關鍵字階段 - ".toList

/-- The separator between the model name and the error detail (lines 155
and 206). -/
def STAGE_ERR_MID : Str := "): ".toList

/-- The failure-message head of the report-synthesis stage (line 206). -/
def REPORT_STAGE_ERR_PRE : Str := "Error (生成報告階段 - ".toList

/-- Behaviour of one `run_full_analysis` invocation: the SDK behaviour used
by `find_best_model`, the second `genai.configure` plus the
`GenerativeModel` construction, the text-generation call
(`model.generate_content(...).text`), and the Entrez transport. -/
structure PipelineEnv where
  genai : GenaiEnv
  construct : Option Str → Except Str Unit
  generate : Option Str → Str → Except Str Str
  entrez : EntrezEnv

/-- The function `run_full_analysis(combined_text, api_key)` (`app.py` lines 135-206).
`genai.configure` and `GenerativeModel(model_name)` (lines 143-144) run
outside any `try`, so their exceptions escape; each generation call sits in
its own `try` whose `except` returns a stage-tagged `Error ...` string. -/
def run_full_analysis (env : PipelineEnv) (combined_text : Str) : Except Str Str :=
  match find_best_model env.genai with
  | .error e => .error e
  | .ok (model_name, error) =>
    if truthyOptStr error then
      .ok (MODEL_DETECT_ERR_PRE ++ error.getD [])
    else
      match env.genai.configure with
      | .error e => .error e
      | .ok _ =>
        match env.construct model_name with
        | .error e => .error e
        | .ok _ =>
          match env.generate model_name (keyword_prompt combined_text) with
          | .error e =>
            .ok (KW_STAGE_ERR_PRE ++ pyStrOfOpt model_name ++ STAGE_ERR_MID ++ e)
          | .ok kw_text =>
            match env.generate model_name
                (review_prompt combined_text
                  (search_pubmed env.entrez (pyStrip kw_text)).1) with
            | .error e =>
              .ok (REPORT_STAGE_ERR_PRE ++ pyStrOfOpt model_name ++ STAGE_ERR_MID ++ e)
            | .ok final_text => .ok final_text

/-- What the main block renders for a pipeline result (`app.py` lines
242-253): an error box when the result is truthy and starts with `Error`,
the report otherwise (when truthy), nothing for an empty result. -/
inductive MainDisplay
  | failureBox (detail : Str)
  | report (text : Str)
  | nothingShown
deriving DecidableEq

/-- The literal `"Error"` tested by `result.startswith("Error")`
(`app.py` line 242). -/
def ERROR_TAG : Str := "Error".toList

/-- The dispatch of `app.py` lines 242-253. -/
def main_render (result : Str) : MainDisplay :=
  if !result.isEmpty && ERROR_TAG.isPrefixOf result then .failureBox result
  else if !result.isEmpty then .report result
  else .nothingShown

theorem errTag_isPrefixOf_append (pre x : Str) (h : ERROR_TAG <+: pre) :
    ERROR_TAG.isPrefixOf (pre ++ x) = true := by
  rw [ List.isPrefixOf_iff_prefix]
  exact h.trans ⟨x, rfl⟩

theorem run_full_analysis_unfold (env : PipelineEnv) (combined_text : Str)
    (mn : Option Str)
    (hfb : find_best_model env.genai = .ok (mn, none))
    (hcfg : env.genai.configure = Except.ok ())
    (hcon : env.construct mn = Except.ok ()) :
    run_full_analysis env combined_text =
      (match env.generate mn (keyword_prompt combined_text) with
       | .error e => .ok (KW_STAGE_ERR_PRE ++ pyStrOfOpt mn ++ STAGE_ERR_MID ++ e)
       | .ok kw_text =>
         match env.generate mn
             (review_prompt combined_text
               (search_pubmed env.entrez (pyStrip kw_text)).1) with
         | .error e =>
           .ok (REPORT_STAGE_ERR_PRE ++ pyStrOfOpt mn ++ STAGE_ERR_MID ++ e)
         | .ok final_text => .ok final_text) := by
  unfold run_full_analysis
  rw [hfb]
  dsimp only
  rw [if_neg (by decide), hcfg]
  dsimp only
  rw [hcon]

/-- claim C6: the keyword-extraction prompt embeds exactly the first 5000
characters of the merged corpus (the whole corpus if shorter) and the
report-synthesis prompt embeds exactly the first 30000 characters, a prefix
within the 20000-30000 character budget. -/
theorem C6_prompt_truncation (corpus pubmed_data : Str) :
    keyword_prompt corpus = KW_PROMPT_PRE ++ corpus.take 5000 ∧
    corpus.take 5000 <+: corpus ∧
    (corpus.take 5000).length = min 5000 corpus.length ∧
    review_prompt corpus pubmed_data =
      REVIEW_PRE ++ corpus.take 30000 ++ REVIEW_MID ++ pubmed_data ++ REVIEW_POST ∧
    corpus.take 30000 <+: corpus ∧
    (corpus.take 30000).length = min 30000 corpus.length ∧
    20000 ≤ 30000 ∧ 30000 ≤ 30000 :=
  ⟨rfl, ⟨corpus.drop 5000, List.take_append_drop _ _⟩, by simp [List.length_take],
   rfl, ⟨corpus.drop 30000, List.take_append_drop _ _⟩, by simp [List.length_take],
   by decide, by decide⟩

/-- claim C5: transport failures at either Entrez step are caught by
`search_pubmed` and converted to a descriptive error string returned as its
value; whatever string it returns is threaded unchanged into the synthesis
prompt, and the literature stage never produces the pipeline's failure
path — the run's outcome is decided by the generation calls alone. -/
theorem C5_literature_advisory_threading (env : PipelineEnv)
    (corpus kw_text : Str) (mn : Option Str)
    (hfb : find_best_model env.genai = .ok (mn, none))
    (hcfg : env.genai.configure = Except.ok ())
    (hcon : env.construct mn = Except.ok ())
    (hkw : env.generate mn (keyword_prompt corpus) = .ok kw_text) :
    (∀ e, env.entrez.esearch (esearchCall (pyStrip kw_text) 5) = .error e →
      (search_pubmed env.entrez (pyStrip kw_text)).1 = PUBMED_ERR_PRE ++ e) ∧
    (∀ ids e, env.entrez.esearch (esearchCall (pyStrip kw_text) 5) = .ok ids →
      ids ≠ [] → env.entrez.efetch (efetchCall ids) = .error e →
      (search_pubmed env.entrez (pyStrip kw_text)).1 = PUBMED_ERR_PRE ++ e) ∧
    review_prompt corpus (search_pubmed env.entrez (pyStrip kw_text)).1 =
      REVIEW_PRE ++ corpus.take 30000 ++ REVIEW_MID ++
        (search_pubmed env.entrez (pyStrip kw_text)).1 ++ REVIEW_POST ∧
    (∀ t, env.generate mn (review_prompt corpus
        (search_pubmed env.entrez (pyStrip kw_text)).1) = .ok t →
      run_full_analysis env corpus = .ok t) ∧
    (∀ e, env.generate mn (review_prompt corpus
        (search_pubmed env.entrez (pyStrip kw_text)).1) = .error e →
      run_full_analysis env corpus =
        .ok (REPORT_STAGE_ERR_PRE ++ pyStrOfOpt mn ++ STAGE_ERR_MID ++ e)) := by
  refine ⟨?_, ?_, rfl, ?_, ?_⟩
  · intro e he
    unfold search_pubmed
    rw [he]
  · intro ids e h1 hne h2
    unfold search_pubmed
    rw [h1]
    dsimp only
    rw [if_neg (by simp [List.isEmpty_iff, hne]), h2]
  · intro t ht
    rw [run_full_analysis_unfold env corpus mn hfb hcfg hcon, hkw]
    dsimp only
    rw [ht]
  · intro e he
    rw [run_full_analysis_unfold env corpus mn hfb hcfg hcon, hkw]
    dsimp only
    rw [he]

/-- A concrete pipeline behaviour whose Entrez transport raises on the id
search while both generation calls succeed. -/
def pipelineEnvLitErr : PipelineEnv :=
  { genai := ⟨Except.ok (),
      Except.ok [⟨"models/gemini-1.5-flash".toList, ["generateContent".toList]⟩]⟩
    construct := fun _ => Except.ok ()
    generate := fun _ _ => Except.ok "keywords".toList
    entrez := ⟨fun _ => Except.error "timeout".toList, fun _ => Except.ok []⟩ }

/-- Witness for C5 at a concrete behaviour: the id search raises, the
adapter returns the descriptive error string, and the pipeline still
completes with the generated report. -/
theorem C5_literature_advisory_threading_witness :
    (search_pubmed pipelineEnvLitErr.entrez (pyStrip "keywords".toList)).1 =
      PUBMED_ERR_PRE ++ "timeout".toList ∧
    run_full_analysis pipelineEnvLitErr [] = .ok "keywords".toList :=
  ⟨(C5_literature_advisory_threading pipelineEnvLitErr [] "keywords".toList
      (some "models/gemini-1.5-flash".toList) rfl rfl rfl rfl).1 _ rfl,
   (C5_literature_advisory_threading pipelineEnvLitErr [] "keywords".toList
      (some "models/gemini-1.5-flash".toList) rfl rfl rfl rfl).2.2.2.1 _ rfl⟩

theorem main_render_failure_iff (r : Str) :
    main_render r = .failureBox r ↔ ERROR_TAG.isPrefixOf r = true := by
  constructor
  · intro h
    by_cases hp : ERROR_TAG.isPrefixOf r = true
    · exact hp
    · exfalso
      have hp' : ERROR_TAG.isPrefixOf r = false := by
        cases hb : ERROR_TAG.isPrefixOf r
        · rfl
        · exact absurd hb hp
      unfold main_render at h
      rw [hp', Bool.and_false] at h
      rw [if_neg (by simp)] at h
      split at h
      · exact MainDisplay.noConfusion h
      · exact MainDisplay.noConfusion h
  · intro hp
    have hner : r ≠ [] := by
      intro h0
      rw [h0] at hp
      exact absurd hp (by decide)
    have hne : r.isEmpty = false := by
      cases r with
      | nil => exact absurd rfl hner
      | cons a t => rfl
    unfold main_render
    rw [hp, hne]
    rfl

/-- claim C9: every failure-path return value of `run_full_analysis` starts
with `Error` and carries the stage name (and, for generation stages, the
model name); the main block classifies a result as a failure exactly when
it starts with `Error`; consequently a successfully generated report whose
own text starts with `Error` is rendered as a failure, indistinguishable
from a real one at the public interface. -/
theorem C9_error_prefix_classification :
    (∀ (env : PipelineEnv) (corpus e : Str),
      find_best_model env.genai = .ok (none, some e) → e ≠ [] →
      run_full_analysis env corpus = .ok (MODEL_DETECT_ERR_PRE ++ e) ∧
        ERROR_TAG.isPrefixOf (MODEL_DETECT_ERR_PRE ++ e) = true) ∧
    (∀ (env : PipelineEnv) (corpus e : Str) (mn : Option Str),
      find_best_model env.genai = .ok (mn, none) →
      env.genai.configure = Except.ok () → env.construct mn = Except.ok () →
      env.generate mn (keyword_prompt corpus) = .error e →
      run_full_analysis env corpus =
        .ok (KW_STAGE_ERR_PRE ++ pyStrOfOpt mn ++ STAGE_ERR_MID ++ e) ∧
        ERROR_TAG.isPrefixOf
          (KW_STAGE_ERR_PRE ++ pyStrOfOpt mn ++ STAGE_ERR_MID ++ e) = true) ∧
    (∀ (env : PipelineEnv) (corpus kw_text e : Str) (mn : Option Str),
      find_best_model env.genai = .ok (mn, none) →
      env.genai.configure = Except.ok () → env.construct mn = Except.ok () →
      env.generate mn (keyword_prompt corpus) = .ok kw_text →
      env.generate mn (review_prompt corpus
        (search_pubmed env.entrez (pyStrip kw_text)).1) = .error e →
      run_full_analysis env corpus =
        .ok (REPORT_STAGE_ERR_PRE ++ pyStrOfOpt mn ++ STAGE_ERR_MID ++ e) ∧
        ERROR_TAG.isPrefixOf
          (REPORT_STAGE_ERR_PRE ++ pyStrOfOpt mn ++ STAGE_ERR_MID ++ e) = true) ∧
    (∀ r : Str, main_render r = .failureBox r ↔ ERROR_TAG.isPrefixOf r = true) ∧
    (∀ (env : PipelineEnv) (corpus kw_text r : Str) (mn : Option Str),
      find_best_model env.genai = .ok (mn, none) →
      env.genai.configure = Except.ok () → env.construct mn = Except.ok () →
      env.generate mn (keyword_prompt corpus) = .ok kw_text →
      env.generate mn (review_prompt corpus
        (search_pubmed env.entrez (pyStrip kw_text)).1) = .ok r →
      ERROR_TAG.isPrefixOf r = true →
      run_full_analysis env corpus = .ok r ∧ main_render r = .failureBox r) := by
  refine ⟨?_, ?_, ?_, main_render_failure_iff, ?_⟩
  · intro env corpus e hfb hne
    constructor
    · unfold run_full_analysis
      rw [hfb]
      dsimp only
      cases e with
      | nil => exact absurd rfl hne
      | cons a t => rfl
    · exact errTag_isPrefixOf_append _ _ ⟨" (模型偵測失敗): ".toList, by decide⟩
  · intro env corpus e mn hfb hcfg hcon hkw
    refine ⟨?_, errTag_isPrefixOf_append KW_STAGE_ERR_PRE
      (pyStrOfOpt mn ++ STAGE_ERR_MID ++ e) ⟨" (關鍵字階段 - ".toList, by decide⟩⟩
    rw [run_full_analysis_unfold env corpus mn hfb hcfg hcon, hkw]
  · intro env corpus kw_text e mn hfb hcfg hcon hkw hrev
    refine ⟨?_, errTag_isPrefixOf_append REPORT_STAGE_ERR_PRE
      (pyStrOfOpt mn ++ STAGE_ERR_MID ++ e) ⟨" (生成報告階段 - ".toList, by decide⟩⟩
    rw [run_full_analysis_unfold env corpus mn hfb hcfg hcon, hkw]
    dsimp only
    rw [hrev]
  · intro env corpus kw_text r mn hfb hcfg hcon hkw hrev hErr
    constructor
    · rw [run_full_analysis_unfold env corpus mn hfb hcfg hcon, hkw]
      dsimp only
      rw [hrev]
    · exact (main_render_failure_iff r).mpr hErr

/-- A concrete pipeline behaviour in which every call succeeds and the
generated text itself happens to start with `Error`. -/
def pipelineEnvAmbiguous : PipelineEnv :=
  { genai := ⟨Except.ok (),
      Except.ok [⟨"models/gemini-1.5-flash".toList, ["generateContent".toList]⟩]⟩
    construct := fun _ => Except.ok ()
    generate := fun _ _ => Except.ok "Error rates in sepsis cohorts are reviewed.".toList
    entrez := ⟨fun _ => Except.ok [], fun _ => Except.ok []⟩ }

/-- Witness for C9 at a concrete behaviour: a successful run whose report
text starts with `Error` is rendered as a failure box. -/
theorem C9_error_prefix_classification_witness :
    run_full_analysis pipelineEnvAmbiguous [] =
      .ok "Error rates in sepsis cohorts are reviewed.".toList ∧
    main_render "Error rates in sepsis cohorts are reviewed.".toList =
      .failureBox "Error rates in sepsis cohorts are reviewed.".toList :=
  C9_error_prefix_classification.2.2.2.2 pipelineEnvAmbiguous []
    "Error rates in sepsis cohorts are reviewed.".toList
    "Error rates in sepsis cohorts are reviewed.".toList
    (some "models/gemini-1.5-flash".toList) rfl rfl rfl rfl rfl (by decide)

/-- Modelled from the spec: `src/app.py` contains no candidate-list
Generation Client (it resolves a single model and attempts each generation
once); spec §4.4 describes the fallback variant's error signatures, whose
classification distinguishes "model not found" and "temporarily
unavailable/overloaded" from authentication, malformed-request and quota
errors. -/
inductive ErrSignature
  | modelNotFound (detail : Str)
  | temporarilyUnavailable (detail : Str)
  | authentication (detail : Str)
  | malformedRequest (detail : Str)
  | quota (detail : Str)
deriving DecidableEq

/-- Modelled from the spec: "if the error signature indicates model not
found or temporarily unavailable/overloaded ... treat as
retryable-by-substitution ... Any other error (authentication, malformed
request, quota) is fatal". -/
def retryableBySubstitution : ErrSignature → Bool
  | .modelNotFound _ => true
  | .temporarilyUnavailable _ => true
  | .authentication _ => false
  | .malformedRequest _ => false
  | .quota _ => false

/-- Modelled from the spec: outcome of the Generation Client —
`(responseText, usedModel)` on success, the fatal error, or
`AllModelsExhausted` carrying the last retryable error's detail. -/
inductive GenOutcome
  | success (text : Str) (usedModel : Str)
  | fatal (err : ErrSignature)
  | allModelsExhausted (last : Option ErrSignature)
deriving DecidableEq

/-- Modelled from the spec: the Generation Client's substitution loop —
iterate candidates in order; on success return text and the serving
candidate; on a retryable error advance; on a fatal error abort
immediately. -/
def generate_with_fallback (attempt : Str → Except ErrSignature Str) :
    List Str → Option ErrSignature → GenOutcome
  | [], last => .allModelsExhausted last
  | m :: rest, last =>
    match attempt m with
    | .ok text => .success text m
    | .error e =>
      if retryableBySubstitution e then
        generate_with_fallback attempt rest (some e)
      else .fatal e

/-- Modelled from the spec: the candidates the substitution loop actually
attempts, in order. -/
def attempted_models (attempt : Str → Except ErrSignature Str) :
    List Str → List Str
  | [] => []
  | m :: rest =>
    match attempt m with
    | .ok _ => [m]
    | .error e =>
      if retryableBySubstitution e then m :: attempted_models attempt rest
      else [m]

/-- claim C1: for candidates `[A, B]`, when `A` fails with a "not found"
(retryable) signature and `B` succeeds, the Generation Client returns `B`'s
text and reports `B` as the used model (having attempted both); when `A`
fails with an authentication (fatal) signature, it aborts immediately with
that error and never attempts `B`. -/
theorem C1_generation_client_fallback (A B textB dNF dAuth : Str)
    (attempt1 attempt2 : Str → Except ErrSignature Str)
    (h1A : attempt1 A = .error (.modelNotFound dNF))
    (h1B : attempt1 B = .ok textB)
    (h2A : attempt2 A = .error (.authentication dAuth)) :
    generate_with_fallback attempt1 [A, B] none = .success textB B ∧
    attempted_models attempt1 [A, B] = [A, B] ∧
    generate_with_fallback attempt2 [A, B] none =
      .fatal (.authentication dAuth) ∧
    attempted_models attempt2 [A, B] = [A] := by
  refine ⟨?_, ?_, ?_, ?_⟩
  · unfold generate_with_fallback
    rw [h1A]
    dsimp only [retryableBySubstitution]
    rw [if_pos rfl]
    unfold generate_with_fallback
    rw [h1B]
  · unfold attempted_models
    rw [h1A]
    dsimp only [retryableBySubstitution]
    rw [if_pos rfl]
    unfold attempted_models
    rw [h1B]
  · unfold generate_with_fallback
    rw [h2A]
    dsimp only [retryableBySubstitution]
    rw [if_neg (by simp)]
  · unfold attempted_models
    rw [h2A]
    dsimp only [retryableBySubstitution]
    rw [if_neg (by simp)]

/-- Witness for C1 at concrete inputs: two concrete attempt behaviours over
the candidate list `["models/a", "models/b"]`. -/
theorem C1_generation_client_fallback_witness :
    generate_with_fallback
        (fun m => if m = "models/a".toList
          then .error (.modelNotFound "404".toList)
          else .ok "report".toList)
        ["models/a".toList, "models/b".toList] none =
      .success "report".toList "models/b".toList ∧
    generate_with_fallback
        (fun _ => Except.error (ErrSignature.authentication "bad key".toList))
        ["models/a".toList, "models/b".toList] none =
      .fatal (.authentication "bad key".toList) ∧
    attempted_models
        (fun _ => Except.error (ErrSignature.authentication "bad key".toList))
        ["models/a".toList, "models/b".toList] = ["models/a".toList] := by
  have h := C1_generation_client_fallback "models/a".toList "models/b".toList
    "report".toList "404".toList "bad key".toList
    (fun m => if m = "models/a".toList
      then .error (.modelNotFound "404".toList)
      else .ok "report".toList)
    (fun _ => Except.error (ErrSignature.authentication "bad key".toList))
    (by simp) (by simp) rfl
  exact ⟨h.1, h.2.2.1, h.2.2.2⟩
